import Mathlib

/-!
Verification of the SocketChatApp repository (ChatServer.cpp, ChatClient.cpp).

The server keeps a vector of connected client sockets (the registry).
Each client is served by HandleClient, which repeatedly calls recv into a
4096-byte buffer with a 4095-byte cap, null-terminates at the byte count,
and then either (a) treats a message beginning with the marker __CONNECT__
as a connect-announcement, setting the current client name to the remainder
and broadcasting a "<name> connected." notice to every other socket, or
(b) broadcasts the received bytes verbatim to every other socket. On recv
failure the handler erases its socket from the registry and closes it. The
acceptor loop in main pushes each accepted socket into the registry before
spawning the handler thread. The client program reads lines, prefixes each
with the entered name as "<name> : <text>", sends, and stops its sending
loop after sending a line equal to "quit" or "exit".

The embedding below models socket handles as naturals, byte strings as
Lean strings (the observed traffic is ASCII, where C++ bytes and Lean
characters coincide), and each send call performed by a broadcast loop as
a record of destination and payload.
-/

/-- Socket handles (Winsock SOCKET values), modelled as naturals. Handles of
live sockets are pairwise distinct while live. -/
abbrev SOCKET := Nat

/-- The connect-announcement marker, ChatServer.cpp line 57. -/
def connectMarker : String := "__CONNECT__"

/-- Character-list version of std::string::compare(0, n, s) == 0: does the
second list begin with the first? -/
def charsBeginWith : List Char → List Char → Bool
  | [], _ => true
  | _ :: _, [] => false
  | p :: ps, c :: cs => p == c && charsBeginWith ps cs

/-- Test of ChatServer.cpp line 58: message.compare(0, connectPrefix.length(),
connectPrefix) == 0, i.e. the message begins with the marker. -/
def hasConnectMarker (message : String) : Bool :=
  charsBeginWith connectMarker.data message.data

/-- ChatServer.cpp line 59: message.substr(connectPrefix.length()), the
announced display name. -/
def dropConnectMarker (message : String) : String :=
  ⟨message.data.drop connectMarker.length⟩

/-- One send call issued by a broadcast loop: destination socket and the
payload bytes passed to send. -/
structure SendRec where
  dest : SOCKET
  payload : String
deriving DecidableEq

/-- The broadcast loop of ChatServer.cpp lines 64-68 and 74-78: for each
socket in the registry vector, in order, send the payload unless the socket
equals the sending client. -/
def broadcastExcept : List SOCKET → SOCKET → String → List SendRec
  | [], _, _ => []
  | c :: rest, sender, payload =>
    if c = sender then broadcastExcept rest sender payload
    else ⟨c, payload⟩ :: broadcastExcept rest sender payload

/-- One iteration of the HandleClient loop body (ChatServer.cpp lines 46-79)
for a successfully received message: returns the client name after the
iteration and the sends the iteration performs. A message beginning with
__CONNECT__ resets the name and broadcasts "<name> connected."; any other
message is broadcast verbatim. -/
def handleMessage (clientSocket : SOCKET) (clients : List SOCKET)
    (clientName message : String) : String × List SendRec :=
  if hasConnectMarker message then
    (dropConnectMarker message,
      broadcastExcept clients clientSocket (dropConnectMarker message ++ " connected."))
  else
    (clientName, broadcastExcept clients clientSocket message)

/-- The HandleClient receive loop over a sequence of received messages,
threading the client name (initially "Unknown", ChatServer.cpp line 44) and
collecting all sends in order. The registry snapshot is held fixed, as for
a run during which no other session joins or leaves. -/
def runSession (sock : SOCKET) (clients : List SOCKET) :
    String → List String → String × List SendRec
  | name, [] => (name, [])
  | name, msg :: rest =>
    let step := handleMessage sock clients name msg
    let next := runSession sock clients step.1 rest
    (next.1, step.2 ++ next.2)

/-- The acceptor step, ChatServer.cpp line 149: clients.push_back(clientSocket)
runs immediately after accept, before any message from the client. -/
def acceptClient (clients : List SOCKET) (s : SOCKET) : List SOCKET :=
  clients ++ [s]

/-- The teardown step, ChatServer.cpp lines 82-85: find the socket in the
vector and erase the first occurrence if present; absent handles are left
alone without error. -/
def removeClient (clients : List SOCKET) (s : SOCKET) : List SOCKET :=
  clients.erase s

/-- A whole client lifecycle against a fixed peer set: accept (push_back),
run the receive loop over the received messages, then erase the socket. The
result is the registry after teardown and the sends the session performed. -/
def clientLifecycle (clients : List SOCKET) (s : SOCKET) (msgs : List String) :
    List SOCKET × List SendRec :=
  let afterAccept := acceptClient clients s
  let run := runSession s afterAccept "Unknown" msgs
  (removeClient afterAccept s, run.2)

/-- The broadcast loop with the outcome of each send call recorded: the
return value of send (ChatServer.cpp lines 66 and 76) is discarded by the
code, so the loop attempts every non-sender socket no matter which sends
fail. sendOk tells which destinations would accept the write. -/
def broadcastResults : List SOCKET → SOCKET → String → (SOCKET → Bool) →
    List (SendRec × Bool)
  | [], _, _, _ => []
  | c :: rest, sender, payload, sendOk =>
    if c = sender then broadcastResults rest sender payload sendOk
    else (⟨c, payload⟩, sendOk c) :: broadcastResults rest sender payload sendOk

/-- One chat-broadcast step of HandleClient together with the registry it
leaves behind: the loop body (ChatServer.cpp lines 74-78) performs only send
calls and never mutates the clients vector, so the registry after the step
is the registry before it. -/
def chatBroadcastStep (clients : List SOCKET) (sender : SOCKET) (payload : String)
    (sendOk : SOCKET → Bool) : List (SendRec × Bool) × List SOCKET :=
  (broadcastResults clients sender payload sendOk, clients)

/-- Receive buffer size, char buffer[4096] in ChatServer.cpp line 43 and
ChatClient.cpp line 169. -/
def bufCapacity : Nat := 4096

/-- The byte cap passed to recv: sizeof(buffer) - 1 (ChatServer.cpp line 47,
ChatClient.cpp line 171). -/
def recvLimit : Nat := bufCapacity - 1

/-- The index written by the null-termination buffer[bytesReceived] = 0
(ChatServer.cpp line 53, ChatClient.cpp line 177). -/
def terminatorIndex (bytesReceived : Nat) : Nat := bytesReceived

/-- Client-side message formatting, ChatClient.cpp line 116:
fullMsg = name + " : " + message. -/
def clientFormat (name message : String) : String :=
  name ++ " : " ++ message

/-- The local termination test of ChatClient.cpp line 124:
message == "quit" or message == "exit". -/
def isQuitCommand (message : String) : Bool :=
  message == "quit" || message == "exit"

/-- The sending loop of sendMesg (ChatClient.cpp lines 107-129) over a list
of typed lines, returning the payloads passed to send in order: empty lines
are skipped, every other line is sent prefixed, and the loop stops right
after sending a line equal to "quit" or "exit". -/
def sendLoop (name : String) : List String → List String
  | [] => []
  | line :: rest =>
    if line = "" then sendLoop name rest
    else if isQuitCommand line then [clientFormat name line]
    else clientFormat name line :: sendLoop name rest

/-! Helper lemmas about the broadcast loop. -/

/-- Membership in the sends of a broadcast: a send record occurs exactly when
its destination is a registry member other than the sender and its payload is
the broadcast payload. -/
lemma mem_broadcastExcept (clients : List SOCKET) (sender : SOCKET) (p : String)
    (r : SendRec) :
    r ∈ broadcastExcept clients sender p ↔
      r.dest ∈ clients ∧ r.dest ≠ sender ∧ r.payload = p := by
  induction clients with
  | nil => simp [broadcastExcept]
  | cons c rest ih =>
    obtain ⟨d, pl⟩ := r
    rw [broadcastExcept]
    by_cases hc : c = sender
    · rw [if_pos hc, ih]
      subst hc
      simp only [List.mem_cons]
      constructor
      · rintro ⟨hmem, hne, hpl⟩
        exact ⟨Or.inr hmem, hne, hpl⟩
      · rintro ⟨hd | hmem, hne, hpl⟩
        · exact absurd hd hne
        · exact ⟨hmem, hne, hpl⟩
    · rw [if_neg hc]
      simp only [List.mem_cons, ih, SendRec.mk.injEq]
      constructor
      · rintro (⟨hd, hpl⟩ | ⟨hmem, hne, hpl⟩)
        · subst hd
          exact ⟨Or.inl rfl, hc, hpl⟩
        · exact ⟨Or.inr hmem, hne, hpl⟩
      · rintro ⟨hd | hmem, hne, hpl⟩
        · exact Or.inl ⟨hd, hpl⟩
        · exact Or.inr ⟨hmem, hne, hpl⟩

/-- Under a duplicate-free registry, each destination other than the sender
receives exactly one send from a broadcast, and the sender and non-members
receive none. -/
lemma countP_broadcastExcept :
    ∀ (clients : List SOCKET) (sender d : SOCKET) (p : String), clients.Nodup →
      (broadcastExcept clients sender p).countP (fun r => decide (r.dest = d)) =
        if d ∈ clients ∧ d ≠ sender then 1 else 0 := by
  intro clients
  induction clients with
  | nil =>
    intro sender d p _
    simp [broadcastExcept]
  | cons c rest ih =>
    intro sender d p hnd
    obtain ⟨hc_rest, hnd_rest⟩ := List.nodup_cons.mp hnd
    by_cases hc : c = sender
    · subst hc
      rw [broadcastExcept, if_pos rfl, ih c d p hnd_rest]
      rcases eq_or_ne d c with hdc | hdc
      · subst hdc
        simp
      · simp [List.mem_cons, hdc]
    · rw [broadcastExcept, if_neg hc, List.countP_cons, ih sender d p hnd_rest]
      rcases eq_or_ne d c with hdc | hdc
      · subst hdc
        simp [hc_rest, hc]
      · simp [List.mem_cons, hdc, Ne.symm hdc]

/-- The attempted destinations of a broadcast do not depend on which sends
succeed: projecting away the outcomes yields the plain broadcast. -/
lemma map_fst_broadcastResults :
    ∀ (clients : List SOCKET) (sender : SOCKET) (p : String) (sendOk : SOCKET → Bool),
      (broadcastResults clients sender p sendOk).map (fun q => q.1) =
        broadcastExcept clients sender p := by
  intro clients
  induction clients with
  | nil => intro sender p sendOk; rfl
  | cons c rest ih =>
    intro sender p sendOk
    by_cases hc : c = sender <;>
      simp [broadcastResults, broadcastExcept, hc, ih sender p sendOk]

/-- Every non-sender registry member has its send attempted by the loop with
recorded outcomes, and the recorded outcome is what sendOk says for it. -/
lemma mem_broadcastResults :
    ∀ (clients : List SOCKET) (sender : SOCKET) (p : String) (sendOk : SOCKET → Bool)
      (d : SOCKET), d ∈ clients → d ≠ sender →
      ((⟨d, p⟩, sendOk d) : SendRec × Bool) ∈ broadcastResults clients sender p sendOk := by
  intro clients
  induction clients with
  | nil =>
    intro sender p sendOk d hd _
    cases hd
  | cons c rest ih =>
    intro sender p sendOk d hd hds
    rw [broadcastResults]
    rcases List.mem_cons.mp hd with hdc | hdm
    · subst hdc
      rw [if_neg hds]
      exact List.mem_cons_self _ _
    · by_cases hc : c = sender
      · rw [if_pos hc]
        exact ih sender p sendOk d hdm hds
      · rw [if_neg hc]
        exact List.mem_cons_of_mem _ (ih sender p sendOk d hdm hds)

/-- A list of characters begins with itself followed by anything. -/
lemma charsBeginWith_append (p t : List Char) : charsBeginWith p (p ++ t) = true := by
  induction p with
  | nil => rfl
  | cons c cs ih => simp [charsBeginWith, ih]

/-- A message built as the marker followed by a name is recognised as a
connect-announcement. -/
lemma hasConnectMarker_append (X : String) :
    hasConnectMarker (connectMarker ++ X) = true :=
  charsBeginWith_append connectMarker.data X.data

/-- Stripping the marker from a message built as the marker followed by a
name recovers the name. -/
lemma dropConnectMarker_append (X : String) :
    dropConnectMarker (connectMarker ++ X) = X := by
  show (⟨(connectMarker.data ++ X.data).drop connectMarker.data.length⟩ : String) = X
  rw [List.drop_left]

/-! Claim theorems. -/

/-- C1: for every chat message received from a sender, the broadcast loop
sends the message to exactly those clients in the registry whose socket
differs from the sender, and never to the sender itself. -/
theorem chat_broadcast_exact_targets (clients : List SOCKET) (sender : SOCKET)
    (name msg : String) (hmsg : hasConnectMarker msg = false) :
    (∀ d : SOCKET,
        (∃ r ∈ (handleMessage sender clients name msg).2, r.dest = d) ↔
          d ∈ clients ∧ d ≠ sender) ∧
    ∀ r ∈ (handleMessage sender clients name msg).2,
      r.dest ≠ sender ∧ r.payload = msg := by
  simp only [handleMessage, hmsg, Bool.false_eq_true, if_false]
  constructor
  · intro d
    constructor
    · rintro ⟨r, hr, hrd⟩
      have h := (mem_broadcastExcept clients sender msg r).mp hr
      exact ⟨hrd ▸ h.1, hrd ▸ h.2.1⟩
    · rintro ⟨hd, hds⟩
      exact ⟨⟨d, msg⟩, (mem_broadcastExcept clients sender msg _).mpr ⟨hd, hds, rfl⟩, rfl⟩
  · intro r hr
    have h := (mem_broadcastExcept clients sender msg r).mp hr
    exact ⟨h.2.1, h.2.2⟩

/-- Witness for C1 at a concrete registry, sender and message. -/
theorem chat_broadcast_exact_targets_witness :
    hasConnectMarker "hello" = false ∧
    ((∃ r ∈ (handleMessage 2 [1, 2, 3] "Alice" "hello").2, r.dest = 1) ↔
      (1 ∈ ([1, 2, 3] : List SOCKET) ∧ 1 ≠ 2)) :=
  ⟨by decide, (chat_broadcast_exact_targets [1, 2, 3] 2 "Alice" "hello" (by decide)).1 1⟩

/-- C2 counterexample: with registry [1, 2], sender 1 named "Alice" and
received text "hello", the server delivers the payload "hello" verbatim to
socket 2, not "Alice : hello"; the server performs no prefixing. -/
theorem server_forwards_verbatim_cex :
    (handleMessage 1 [1, 2] "Alice" "hello").2 = [⟨2, "hello"⟩] ∧
    ("hello" : String) ≠ "Alice : hello" := by decide

/-- C2 amended: recipients receive exactly the bytes the sending client
transmitted; it is the client (ChatClient.cpp line 116) that builds
"<name> : <text>", and the server forwards that payload verbatim to every
registry member other than the sender. -/
theorem client_prefixed_payload_delivered (sender : SOCKET) (clients : List SOCKET)
    (cname name text : String)
    (hm : hasConnectMarker (clientFormat name text) = false) :
    (∀ r ∈ (handleMessage sender clients cname (clientFormat name text)).2,
        r.payload = name ++ " : " ++ text) ∧
    ∀ d ∈ clients, d ≠ sender →
      ∃ r ∈ (handleMessage sender clients cname (clientFormat name text)).2,
        r.dest = d ∧ r.payload = name ++ " : " ++ text := by
  simp only [handleMessage, hm, Bool.false_eq_true, if_false]
  constructor
  · intro r hr
    exact ((mem_broadcastExcept clients sender _ r).mp hr).2.2
  · intro d hd hds
    exact ⟨⟨d, clientFormat name text⟩,
      (mem_broadcastExcept clients sender _ _).mpr ⟨hd, hds, rfl⟩, rfl, rfl⟩

/-- Witness for the amended C2 at a concrete sender, registry and text. -/
theorem client_prefixed_payload_delivered_witness :
    hasConnectMarker (clientFormat "Alice" "hi") = false ∧
    ∀ r ∈ (handleMessage 1 [1, 2] "Alice" (clientFormat "Alice" "hi")).2,
      r.payload = "Alice" ++ " : " ++ "hi" :=
  ⟨by decide, (client_prefixed_payload_delivered 1 [1, 2] "Alice" "Alice" "hi" (by decide)).1⟩

/-- C3 counterexample: the acceptor loop pushes the socket into the registry
at accept time (ChatServer.cpp line 149), before any message is received, so
a freshly accepted socket 7 is already a registry entry. -/
theorem registry_add_at_accept_cex :
    acceptClient [] 7 = [7] ∧ (7 : SOCKET) ∈ acceptClient [] 7 := by decide

/-- C3 amended: registry addition happens at accept, so the registry does
contain an entry for the client while it is connected; a client that
disconnects without ever sending a message causes no send to any other
session, and its teardown erases the entry, leaving the registry exactly as
before the connection. -/
theorem silent_client_leaves_no_trace (clients : List SOCKET) (s : SOCKET)
    (hs : s ∉ clients) :
    s ∈ acceptClient clients s ∧ clientLifecycle clients s [] = (clients, []) := by
  constructor
  · simp [acceptClient]
  · unfold clientLifecycle acceptClient removeClient runSession
    simp only
    rw [List.erase_append_right _ hs, List.erase_cons_head]
    simp

/-- Witness for the amended C3 with a one-member registry and fresh socket. -/
theorem silent_client_leaves_no_trace_witness :
    (7 : SOCKET) ∉ ([3] : List SOCKET) ∧ clientLifecycle [3] 7 [] = ([3], []) :=
  ⟨by decide, (silent_client_leaves_no_trace [3] 7 (by decide)).2⟩

/-- C4: a connect-announcement carrying display name X makes every
registered socket other than the sender receive exactly one "X connected."
notice, the sender and non-members receive none, and every payload the step
sends is the notice, never the raw __CONNECT__ message. -/
theorem announcement_notice_exactly_once (clients : List SOCKET) (sender : SOCKET)
    (X name0 : String) (d : SOCKET) (hnd : clients.Nodup) :
    (handleMessage sender clients name0 (connectMarker ++ X)).1 = X ∧
    ((handleMessage sender clients name0 (connectMarker ++ X)).2).countP
        (fun r => decide (r.dest = d)) = (if d ∈ clients ∧ d ≠ sender then 1 else 0) ∧
    ∀ r ∈ (handleMessage sender clients name0 (connectMarker ++ X)).2,
      r.payload = X ++ " connected." := by
  simp only [handleMessage, hasConnectMarker_append, if_true, dropConnectMarker_append]
  refine ⟨trivial, countP_broadcastExcept clients sender d _ hnd, ?_⟩
  intro r hr
  exact ((mem_broadcastExcept clients sender _ r).mp hr).2.2

/-- Witness for C4 at a concrete three-member registry. -/
theorem announcement_notice_exactly_once_witness :
    ([1, 2, 3] : List SOCKET).Nodup ∧
    ((handleMessage 1 [1, 2, 3] "Unknown" (connectMarker ++ "Alice")).2).countP
        (fun r => decide (r.dest = 2)) =
      (if 2 ∈ ([1, 2, 3] : List SOCKET) ∧ 2 ≠ 1 then 1 else 0) :=
  ⟨by decide, (announcement_notice_exactly_once [1, 2, 3] 1 "Alice" "Unknown" 2 (by decide)).2.1⟩

/-- C5 counterexample: a session receiving a second __CONNECT__ message has
its display name changed again (Alice then Bob) and the second message is
handled as an announcement, broadcasting "Bob connected." rather than being
treated as a chat message. -/
theorem reannounce_changes_name_cex :
    runSession 1 [1, 2] "Unknown" ["__CONNECT__Alice", "__CONNECT__Bob"] =
      ("Bob", [⟨2, "Alice connected."⟩, ⟨2, "Bob connected."⟩]) ∧
    ("Bob" : String) ≠ "Alice" := by decide

/-- C5 amended: the server keeps no once-only Connecting-to-Named state;
every received message beginning with __CONNECT__, at any point in the
session, resets the display name to the remainder of that message, so the
name after a run ending in an announcement is that announcement's name,
whatever came before. -/
theorem later_announcement_overrides :
    ∀ (msgs : List String) (sock : SOCKET) (clients : List SOCKET) (name0 m : String),
      hasConnectMarker m = true →
      (runSession sock clients name0 (msgs ++ [m])).1 = dropConnectMarker m := by
  intro msgs
  induction msgs with
  | nil =>
    intro sock clients name0 m hm
    simp [runSession, handleMessage, hm]
  | cons x xs ih =>
    intro sock clients name0 m hm
    simp only [List.cons_append, runSession]
    exact ih sock clients _ m hm

/-- Witness for the amended C5: after announcing Alice and then Bob, the
session name is Bob. -/
theorem later_announcement_overrides_witness :
    hasConnectMarker "__CONNECT__Bob" = true ∧
    (runSession 1 [1, 2] "Unknown" (["__CONNECT__Alice"] ++ ["__CONNECT__Bob"])).1 =
      dropConnectMarker "__CONNECT__Bob" :=
  ⟨by decide,
    later_announcement_overrides ["__CONNECT__Alice"] 1 [1, 2] "Unknown" "__CONNECT__Bob"
      (by decide)⟩

/-- C6 counterexample: with registry [1, 2, 3], sender 1, and the write to
socket 2 failing, the broadcast step leaves the registry as [1, 2, 3]: the
failed recipient 2 is not removed, because the loop discards the result of
send and never mutates the clients vector. -/
theorem failed_send_remains_cex :
    (fun c => decide (c ≠ 2)) 2 = false ∧
    (chatBroadcastStep [1, 2, 3] 1 "hi" (fun c => decide (c ≠ 2))).2 = [1, 2, 3] := by
  decide

/-- C6 amended: a failed write to one recipient does not abort delivery to
the others, because every non-sender socket is attempted regardless of which
sends fail; but the failed recipient is not evicted: its failed send occurs
in the step, yet it is still in the registry the broadcast step leaves
behind, and is removed only when its own receive loop ends. -/
theorem failed_send_not_evicted (clients : List SOCKET) (sender f : SOCKET)
    (p : String) (sendOk : SOCKET → Bool) (hf : f ∈ clients) (hfs : f ≠ sender)
    (hfail : sendOk f = false) :
    ((chatBroadcastStep clients sender p sendOk).1.map (fun q => q.1) =
        broadcastExcept clients sender p) ∧
    ((⟨f, p⟩, false) : SendRec × Bool) ∈ (chatBroadcastStep clients sender p sendOk).1 ∧
    f ∈ (chatBroadcastStep clients sender p sendOk).2 := by
  have hmem := mem_broadcastResults clients sender p sendOk f hf hfs
  rw [hfail] at hmem
  exact ⟨map_fst_broadcastResults clients sender p sendOk, hmem, hf⟩

/-- Witness for the amended C6 with the write to socket 2 failing. -/
theorem failed_send_not_evicted_witness :
    (fun c => decide (c ≠ 2)) 2 = false ∧
    2 ∈ (chatBroadcastStep [1, 2, 3] 1 "hi" (fun c => decide (c ≠ 2))).2 :=
  ⟨by decide,
    (failed_send_not_evicted [1, 2, 3] 1 2 "hi" (fun c => decide (c ≠ 2))
      (by decide) (by decide) (by decide)).2.2⟩

/-- C8: the byte cap passed to recv is 4095, and for every non-negative byte
count the read can return under that cap, the null-terminator index stays
inside the 4096-byte buffer. -/
theorem recv_cap_and_terminator_in_bounds :
    recvLimit = 4095 ∧
    ∀ n : Nat, n ≤ recvLimit → terminatorIndex n < bufCapacity := by
  constructor
  · rfl
  · intro n hn
    unfold recvLimit bufCapacity at hn
    unfold terminatorIndex bufCapacity
    omega

/-- Witness for C8 at the maximal byte count. -/
theorem recv_cap_and_terminator_in_bounds_witness :
    4095 ≤ recvLimit ∧ terminatorIndex 4095 < bufCapacity :=
  ⟨by decide, recv_cap_and_terminator_in_bounds.2 4095 (by decide)⟩

/-- C9: registry removal is idempotent on duplicate-free registries (the
registry invariant: handles of live sockets are pairwise distinct): removing
a handle twice equals removing it once, and removing an absent handle is a
no-op rather than an error. -/
theorem removeClient_idempotent (r : List SOCKET) (h : SOCKET) (hnd : r.Nodup) :
    removeClient (removeClient r h) h = removeClient r h := by
  unfold removeClient
  apply List.erase_of_not_mem
  intro hmem
  exact ((List.Nodup.mem_erase_iff hnd).mp hmem).1 rfl

/-- Witness for C9 on a concrete two-member registry. -/
theorem removeClient_idempotent_witness :
    ([1, 2] : List SOCKET).Nodup ∧
    removeClient (removeClient [1, 2] 1) 1 = removeClient [1, 2] 1 :=
  ⟨by decide, removeClient_idempotent [1, 2] 1 (by decide)⟩

/-- C10: when the typed line is the literal "quit" or "exit", the client
sends the full prefixed "<name> : <line>" and only then stops its sending
loop (nothing after that line is processed), and the server broadcasts that
payload to every other registered session. -/
theorem quit_message_sent_then_stop (name line : String) (rest : List String)
    (clients : List SOCKET) (sender : SOCKET) (cname : String)
    (hq : isQuitCommand line = true)
    (hm : hasConnectMarker (clientFormat name line) = false) :
    sendLoop name (line :: rest) = [clientFormat name line] ∧
    ∀ d ∈ clients, d ≠ sender →
      ∃ r ∈ (handleMessage sender clients cname (clientFormat name line)).2,
        r.dest = d ∧ r.payload = clientFormat name line := by
  have hcase : line = "quit" ∨ line = "exit" := by
    simpa [isQuitCommand] using hq
  have hne : line ≠ "" := by
    rcases hcase with h | h <;> simp [h]
  constructor
  · simp [sendLoop, hne, hq]
  · intro d hd hds
    simp only [handleMessage, hm, Bool.false_eq_true, if_false]
    exact ⟨⟨d, clientFormat name line⟩,
      (mem_broadcastExcept clients sender _ _).mpr ⟨hd, hds, rfl⟩, rfl, rfl⟩

/-- Witness for C10 with name Bob typing quit followed by another line. -/
theorem quit_message_sent_then_stop_witness :
    isQuitCommand "quit" = true ∧
    sendLoop "Bob" ["quit", "later"] = [clientFormat "Bob" "quit"] :=
  ⟨by decide,
    (quit_message_sent_then_stop "Bob" "quit" ["later"] [1, 2] 1 "Unknown"
      (by decide) (by decide)).1⟩
